import Mathlib

/-!
Shallow embedding of `cmd/grpc-health-probe/main.go` (a one-shot gRPC
health-check probe).  The external collaborators (the gRPC client library,
the flag package, the signal plumbing) are modelled as an oracle
`TargetBehavior` that fixes the result of the connect attempt and of the
health-check RPC for one run.  The control flow of `init()` and `main()` is
translated branch by branch; Go's `os.Exit` terminates the process without
running deferred functions, and the embedding records whether the deferred
`conn.Close()` actually ran on each path.
-/

namespace GrpcHealthProbe

/-- Exit code for invalid arguments (constant `StatusInvalidArguments` in main.go). -/
def StatusInvalidArguments : Nat := 1

/-- Exit code for a failed connection (constant `StatusConnectionFailure` in main.go). -/
def StatusConnectionFailure : Nat := 2

/-- Exit code for a failed health RPC (constant `StatusRPCFailure` in main.go). -/
def StatusRPCFailure : Nat := 3

/-- Exit code for an unhealthy response (constant `StatusUnhealthy` in main.go). -/
def StatusUnhealthy : Nat := 4

/-- The serving-status enumeration of `grpc_health_v1.HealthCheckResponse`. -/
inductive ServingStatus
  | UNKNOWN
  | SERVING
  | NOT_SERVING
  | SERVICE_UNKNOWN
deriving DecidableEq, Repr

/-- The `String()` rendering of the protobuf enum, as used by
`resp.GetStatus().String()` in main.go. -/
def ServingStatus.toString : ServingStatus → String
  | .UNKNOWN => "UNKNOWN"
  | .SERVING => "SERVING"
  | .NOT_SERVING => "NOT_SERVING"
  | .SERVICE_UNKNOWN => "SERVICE_UNKNOWN"

/-- The gRPC status codes that main.go branches on (`codes.Unimplemented`,
`codes.DeadlineExceeded`), with all remaining codes collapsed into one
constructor since the code treats them alike. -/
inductive Code
  | unimplemented
  | deadlineExceeded
  | otherCode
deriving DecidableEq, Repr

/-- Result of the Stage 1 dial `grpc.DialContext(dialCtx, remoteURL, opts...)`:
success, the error `context.DeadlineExceeded` (which main.go compares against
with `err == context.DeadlineExceeded`), or any other error (DNS failure,
connection refused, transport error, cancellation). -/
inductive ConnectResult
  | ok
  | errDeadlineExceeded
  | errOther
deriving DecidableEq, Repr

/-- Result of the Stage 2 call `healthpb.NewHealthClient(conn).Check(...)`:
either a response carrying a serving status, or an error.  For an error,
`hasStatus` is the `ok` flag returned by `status.FromError(err)` and `code`
is the gRPC code `stat.Code()` it carries. -/
inductive RPCResult
  | ok (st : ServingStatus)
  | err (hasStatus : Bool) (code : Code)
deriving DecidableEq, Repr

/-- The dial options appended to the `opts` slice in main.go.
`withTransportCredentials` stands for a TLS-enabling option; it models what
it would take to enable transport security and is never produced by this
program, which states that no configuration can enable TLS. -/
inductive DialOption
  | withUserAgent (ua : String)
  | withBlock
  | withInsecure
  | withTransportCredentials
deriving DecidableEq, Repr

/-- The package-level configuration variables of main.go (`remoteURL`,
`serviceName`, `userAgent`, `connTimeoutDur`, `rpcTimeoutDur`, `verbose`),
set once by flag parsing in `init()`.  Durations are in nanoseconds
(Go `time.Duration` is a signed 64-bit count of nanoseconds). -/
structure Config where
  remoteURL : String
  serviceName : String
  userAgent : String
  connTimeoutDur : Int
  rpcTimeoutDur : Int
  verbose : Bool
deriving DecidableEq, Repr

/-- Oracle fixing the behaviour of the target (and environment) for one run:
the outcome of the dial, the outcome of the health RPC, and how long the
target would make each stage wait if no deadline cut it short. -/
structure TargetBehavior where
  connect : ConnectResult
  rpc : RPCResult
  connectServeTime : Int
  rpcServeTime : Int
deriving DecidableEq, Repr

/-- The argument validation performed in `init()` of main.go, in source
order: empty `--addr`, then non-positive `--connect-timeout`, then
non-positive `--rpc-timeout` each call `argError`, which exits with
`StatusInvalidArguments`.  Returns `some exitCode` when the process exits
during `init()`, `none` when validation passes and `main` runs. -/
def validate (c : Config) : Option Nat :=
  if c.remoteURL = "" then some StatusInvalidArguments
  else if c.connTimeoutDur ≤ 0 then some StatusInvalidArguments
  else if c.rpcTimeoutDur ≤ 0 then some StatusInvalidArguments
  else none

/-- Terminal classification of one probe run.  The code itself distinguishes
these by which branch (and log message) it takes; `Unhealthy` retains the raw
reported status string printed by
`log.Printf("service unhealthy (responded with %q)", resp.GetStatus().String())`. -/
inductive Classification
  | Healthy
  | Unhealthy (rawStatus : String)
  | ProtocolUnimplemented
  | RPCTimeout
  | RPCFailure
  | ConnectionTimeout
  | ConnectionFailure
deriving DecidableEq, Repr

/-- The seven terminal kinds, forgetting the payload of `Unhealthy`. -/
inductive ClassKind
  | healthy
  | unhealthy
  | protocolUnimplemented
  | rpcTimeout
  | rpcFailure
  | connectionTimeout
  | connectionFailure
deriving DecidableEq, Repr

/-- Kind of a classification. -/
def Classification.kind : Classification → ClassKind
  | .Healthy => .healthy
  | .Unhealthy _ => .unhealthy
  | .ProtocolUnimplemented => .protocolUnimplemented
  | .RPCTimeout => .rpcTimeout
  | .RPCFailure => .rpcFailure
  | .ConnectionTimeout => .connectionTimeout
  | .ConnectionFailure => .connectionFailure

/-- The `opts` slice as built in main.go: `grpc.WithUserAgent(userAgent)` and
`grpc.WithBlock()` in the literal, then `grpc.WithInsecure()` appended
unconditionally. -/
def dialOptions (cfg : Config) : List DialOption :=
  [DialOption.withUserAgent cfg.userAgent, DialOption.withBlock] ++
    [DialOption.withInsecure]

/-- Observable result of one execution of `main()` (given that `init()`
passed): the terminal classification, the process exit code, the dial
options used, whether the Stage 2 RPC was attempted, whether a connection
was opened, whether the deferred `conn.Close()` actually ran before the
process ended, and the log lines emitted (message formatting abbreviated;
duration values elided). -/
structure RunResult where
  classification : Classification
  exitCode : Nat
  opts : List DialOption
  rpcAttempted : Bool
  connOpened : Bool
  connClosed : Bool
  log : List String
deriving DecidableEq, Repr

/-- Translation of `main()` from main.go, branch by branch.  `os.Exit`
terminates the Go process immediately without running deferred functions, so
on every `os.Exit` path taken after `defer conn.Close()` was registered the
embedding records `connClosed := false`; only the normal return at the end of
`main` runs the deferred close. -/
def main (cfg : Config) (beh : TargetBehavior) : RunResult :=
  let opts := dialOptions cfg
  let log0 : List String := if cfg.verbose then ["establishing connection"] else []
  match beh.connect with
  | ConnectResult.errDeadlineExceeded =>
      -- err == context.DeadlineExceeded: timeout message, os.Exit(StatusConnectionFailure)
      { classification := Classification.ConnectionTimeout
        exitCode := StatusConnectionFailure
        opts := opts
        rpcAttempted := false
        connOpened := false
        connClosed := false
        log := log0 ++ ["timeout: failed to connect service " ++ cfg.remoteURL] }
  | ConnectResult.errOther =>
      -- any other dial error: os.Exit(StatusConnectionFailure)
      { classification := Classification.ConnectionFailure
        exitCode := StatusConnectionFailure
        opts := opts
        rpcAttempted := false
        connOpened := false
        connClosed := false
        log := log0 ++ ["error: failed to connect service at " ++ cfg.remoteURL] }
  | ConnectResult.ok =>
      -- defer conn.Close() is registered here
      let log1 := log0 ++ (if cfg.verbose then ["connection establisted"] else [])
      match beh.rpc with
      | RPCResult.err hasStat code =>
          -- log.Print(resp) prints the nil response, then the error branches;
          -- all three end in os.Exit(StatusRPCFailure), skipping the deferred close
          if hasStat && (code == Code.unimplemented) then
            { classification := Classification.ProtocolUnimplemented
              exitCode := StatusRPCFailure
              opts := opts
              rpcAttempted := true
              connOpened := true
              connClosed := false
              log := log1 ++ ["<nil>",
                "error: this server does not implement the grpc health protocol (grpc.health.v1.Health)"] }
          else if hasStat && (code == Code.deadlineExceeded) then
            { classification := Classification.RPCTimeout
              exitCode := StatusRPCFailure
              opts := opts
              rpcAttempted := true
              connOpened := true
              connClosed := false
              log := log1 ++ ["<nil>", "timeout: health rpc did not complete"] }
          else
            { classification := Classification.RPCFailure
              exitCode := StatusRPCFailure
              opts := opts
              rpcAttempted := true
              connOpened := true
              connClosed := false
              log := log1 ++ ["<nil>", "error: health rpc failed"] }
      | RPCResult.ok st =>
          let log2 := log1 ++ [st.toString]
          if st != ServingStatus.SERVING then
            -- os.Exit(StatusUnhealthy), skipping the deferred close
            { classification := Classification.Unhealthy st.toString
              exitCode := StatusUnhealthy
              opts := opts
              rpcAttempted := true
              connOpened := true
              connClosed := false
              log := log2 ++ ["service unhealthy (responded with " ++ st.toString ++ ")"] }
          else
            -- normal return from main: the deferred conn.Close() runs, exit code 0
            { classification := Classification.Healthy
              exitCode := 0
              opts := opts
              rpcAttempted := true
              connOpened := true
              connClosed := true
              log := log2 ++ (if cfg.verbose then ["time elapsed"] else [])
                ++ ["status: " ++ st.toString] }

/-- Observable result of one whole process run (`init()` then `main()`). -/
structure ProcessResult where
  exitCode : Nat
  connectAttempted : Bool
  rpcAttempted : Bool
  classification : Option Classification
  connOpened : Bool
  connClosed : Bool
  log : List String
deriving DecidableEq, Repr

/-- One whole process run: `init()` runs first and `os.Exit`s on invalid
arguments, in which case `main()` — and with it the dial and the RPC — is
never reached. -/
def process (cfg : Config) (beh : TargetBehavior) : ProcessResult :=
  match validate cfg with
  | some code =>
      { exitCode := code
        connectAttempted := false
        rpcAttempted := false
        classification := none
        connOpened := false
        connClosed := false
        log := ["error: invalid arguments"] }
  | none =>
      let r := main cfg beh
      { exitCode := r.exitCode
        connectAttempted := true
        rpcAttempted := r.rpcAttempted
        classification := some r.classification
        connOpened := r.connOpened
        connClosed := r.connClosed
        log := r.log }

/-- Wall-clock time Stage 1 may block.  `grpc.DialContext` is issued under
`dialCtx, _ := context.WithTimeout(ctx, connTimeoutDur)`, whose deadline
makes the blocking dial return no later than `connTimeoutDur`; modelled as
truncation of the target's serve time at the deadline. -/
def connectBlockTime (cfg : Config) (beh : TargetBehavior) : Int :=
  min beh.connectServeTime cfg.connTimeoutDur

/-- Wall-clock time Stage 2 may block.  The `Check` RPC is issued under
`rpcCtx, _ := context.WithTimeout(ctx, rpcTimeoutDur)`; modelled as
truncation of the target's serve time at the deadline. -/
def rpcBlockTime (cfg : Config) (beh : TargetBehavior) : Int :=
  min beh.rpcServeTime cfg.rpcTimeoutDur

/-- Total blocking time of one run: the connect stage always runs; the RPC
stage runs only when the dial succeeded (every dial failure calls `os.Exit`
before the RPC). -/
def totalBlockTime (cfg : Config) (beh : TargetBehavior) : Int :=
  connectBlockTime cfg beh +
    (if beh.connect = ConnectResult.ok then rpcBlockTime cfg beh else 0)

/-- A concrete valid configuration (the spec's example scenario). -/
def cfgEx : Config :=
  { remoteURL := "localhost:50051"
    serviceName := ""
    userAgent := "grpc-health-probe"
    connTimeoutDur := 1000000000
    rpcTimeoutDur := 1000000000
    verbose := false }

/-- The example configuration with `--addr` left empty. -/
def cfgNoAddr : Config :=
  { cfgEx with remoteURL := "" }

/-- The example configuration with verbose logging switched on. -/
def cfgExVerbose : Config :=
  { cfgEx with verbose := true }

/-- Target accepts the connection and reports SERVING. -/
def behServing : TargetBehavior :=
  { connect := ConnectResult.ok
    rpc := RPCResult.ok ServingStatus.SERVING
    connectServeTime := 3000000
    rpcServeTime := 2000000 }

/-- Target accepts the connection and reports NOT_SERVING. -/
def behNotServing : TargetBehavior :=
  { behServing with rpc := RPCResult.ok ServingStatus.NOT_SERVING }

/-- Dial attempt exceeds the connect deadline. -/
def behConnTimeout : TargetBehavior :=
  { behServing with connect := ConnectResult.errDeadlineExceeded }

/-- Dial attempt fails for a non-deadline reason (for example refused). -/
def behConnRefused : TargetBehavior :=
  { behServing with connect := ConnectResult.errOther }

/-- Health RPC fails with the Unimplemented code. -/
def behUnimpl : TargetBehavior :=
  { behServing with rpc := RPCResult.err true Code.unimplemented }

/-- Health RPC fails with the DeadlineExceeded code. -/
def behRPCDeadline : TargetBehavior :=
  { behServing with rpc := RPCResult.err true Code.deadlineExceeded }

/-- Health RPC fails with a non-status error. -/
def behRPCFailed : TargetBehavior :=
  { behServing with rpc := RPCResult.err false Code.otherCode }

/-- Claim C1: in every run in which the dial succeeded and the health-check
RPC returned a response, the run is classified Healthy with exit code 0 if
and only if the reported status is SERVING; for any other status it is
classified Unhealthy with exit code 4 and the raw status string is retained
in the classification. -/
theorem c1_serving_iff_healthy (cfg : Config) (beh : TargetBehavior)
    (st : ServingStatus)
    (hc : beh.connect = ConnectResult.ok) (h : beh.rpc = RPCResult.ok st) :
    ((main cfg beh).classification = Classification.Healthy ∧
        (main cfg beh).exitCode = 0 ↔ st = ServingStatus.SERVING) ∧
    (st ≠ ServingStatus.SERVING →
      (main cfg beh).classification = Classification.Unhealthy st.toString ∧
        (main cfg beh).exitCode = StatusUnhealthy) := by
  obtain ⟨cn, rp, t1, t2⟩ := beh
  simp only at hc h
  subst hc
  subst h
  cases st <;> simp [main, ServingStatus.toString, StatusUnhealthy]

/-- Witness for C1 at the example configuration against a SERVING target. -/
theorem c1_serving_iff_healthy_witness :
    (main cfgEx behServing).classification = Classification.Healthy ∧
      (main cfgEx behServing).exitCode = 0 :=
  (c1_serving_iff_healthy cfgEx behServing ServingStatus.SERVING rfl rfl).1.mpr rfl

/-- Claim C2: in every run in which the dial failed, the process exits with
code 2 and Stage 2 is never attempted; the run is classified
ConnectionTimeout exactly when the dial error was the connect deadline
expiring, and ConnectionFailure exactly for every other dial error. -/
theorem c2_connect_failure (cfg : Config) (beh : TargetBehavior)
    (h : beh.connect ≠ ConnectResult.ok) :
    (main cfg beh).exitCode = StatusConnectionFailure ∧
    (main cfg beh).rpcAttempted = false ∧
    ((main cfg beh).classification = Classification.ConnectionTimeout ↔
      beh.connect = ConnectResult.errDeadlineExceeded) ∧
    ((main cfg beh).classification = Classification.ConnectionFailure ↔
      beh.connect = ConnectResult.errOther) := by
  obtain ⟨cn, rp, t1, t2⟩ := beh
  simp only at h
  cases cn
  · exact absurd rfl h
  · simp [main]
  · simp [main]

/-- Witness for C2 at the example configuration when the dial times out. -/
theorem c2_connect_failure_witness :
    (main cfgEx behConnTimeout).exitCode = StatusConnectionFailure ∧
      (main cfgEx behConnTimeout).rpcAttempted = false ∧
      (main cfgEx behConnTimeout).classification =
        Classification.ConnectionTimeout := by
  have h := c2_connect_failure cfgEx behConnTimeout (by decide)
  exact ⟨h.1, h.2.1, h.2.2.1.mpr rfl⟩

/-- Claim C3: in every run in which the dial succeeded and the health-check
RPC returned an error, the process exits with code 3; the run is classified
ProtocolUnimplemented exactly when the error carries the Unimplemented code,
RPCTimeout exactly when it carries the DeadlineExceeded code, and RPCFailure
in every remaining case. -/
theorem c3_rpc_error (cfg : Config) (beh : TargetBehavior)
    (hasStat : Bool) (code : Code)
    (hc : beh.connect = ConnectResult.ok)
    (h : beh.rpc = RPCResult.err hasStat code) :
    (main cfg beh).exitCode = StatusRPCFailure ∧
    ((main cfg beh).classification = Classification.ProtocolUnimplemented ↔
      hasStat = true ∧ code = Code.unimplemented) ∧
    ((main cfg beh).classification = Classification.RPCTimeout ↔
      hasStat = true ∧ code = Code.deadlineExceeded) ∧
    ((main cfg beh).classification = Classification.RPCFailure ↔
      ¬(hasStat = true ∧
        (code = Code.unimplemented ∨ code = Code.deadlineExceeded))) := by
  obtain ⟨cn, rp, t1, t2⟩ := beh
  simp only at hc h
  subst hc
  subst h
  cases hasStat <;> cases code <;> simp [main]

/-- Witness for C3 at the example configuration when the target does not
implement the health protocol. -/
theorem c3_rpc_error_witness :
    (main cfgEx behUnimpl).exitCode = StatusRPCFailure ∧
      (main cfgEx behUnimpl).classification =
        Classification.ProtocolUnimplemented := by
  have h := c3_rpc_error cfgEx behUnimpl true Code.unimplemented rfl rfl
  exact ⟨h.1, h.2.1.mpr ⟨rfl, rfl⟩⟩

/-- Claim C4 fails on the code: on the Unhealthy path `main` calls
`os.Exit(StatusUnhealthy)`, and `os.Exit` terminates the process without
running deferred functions, so the deferred `conn.Close()` registered after
the successful dial never runs.  Evaluation at the failing input (dial
succeeds, target reports NOT_SERVING): the connection was opened but was not
released before the process reported exit code 4.  The same holds on every
`os.Exit(StatusRPCFailure)` path; only the Healthy path, which returns
normally from `main`, runs the deferred close. -/
theorem c4_deferred_close_skipped :
    (main cfgEx behNotServing).connOpened = true ∧
    (main cfgEx behNotServing).connClosed = false ∧
    (main cfgEx behNotServing).exitCode = StatusUnhealthy ∧
    (main cfgEx behServing).connClosed = true :=
  ⟨rfl, rfl, rfl, rfl⟩

/-- Claim C5: every configuration with an empty address, a non-positive
connect timeout or a non-positive RPC timeout is rejected in `init()`: the
process exits with code 1 and neither the dial nor the RPC is attempted. -/
theorem c5_invalid_rejected (cfg : Config) (beh : TargetBehavior)
    (h : cfg.remoteURL = "" ∨ cfg.connTimeoutDur ≤ 0 ∨ cfg.rpcTimeoutDur ≤ 0) :
    (process cfg beh).exitCode = StatusInvalidArguments ∧
    (process cfg beh).connectAttempted = false ∧
    (process cfg beh).rpcAttempted = false := by
  have hv : validate cfg = some StatusInvalidArguments := by
    unfold validate
    rcases h with h | h | h
    · simp [h]
    · by_cases h0 : cfg.remoteURL = "" <;> simp [h0, h]
    · by_cases h0 : cfg.remoteURL = "" <;>
        by_cases h1 : cfg.connTimeoutDur ≤ 0 <;> simp [h0, h1, h]
  unfold process
  rw [hv]
  exact ⟨rfl, rfl, rfl⟩

/-- Witness for C5 at the example configuration with an empty address. -/
theorem c5_invalid_rejected_witness :
    (process cfgNoAddr behServing).exitCode = StatusInvalidArguments ∧
      (process cfgNoAddr behServing).connectAttempted = false ∧
      (process cfgNoAddr behServing).rpcAttempted = false :=
  c5_invalid_rejected cfgNoAddr behServing (Or.inl rfl)

/-- Claim C6: every run with a validated configuration reaches exactly one
of the seven terminal classification kinds, and the seven kinds are
exhaustive over runs: each of them is reached by some run with a validated
configuration. -/
theorem c6_exactly_one_terminal :
    (∀ cfg beh, validate cfg = none →
      ∃! k : ClassKind, (main cfg beh).classification.kind = k) ∧
    (∀ k : ClassKind, ∃ cfg beh,
      validate cfg = none ∧ (main cfg beh).classification.kind = k) := by
  constructor
  · intro cfg beh _
    exact ⟨(main cfg beh).classification.kind, rfl, fun y hy => hy.symm⟩
  · intro k
    cases k
    · exact ⟨cfgEx, behServing, rfl, rfl⟩
    · exact ⟨cfgEx, behNotServing, rfl, rfl⟩
    · exact ⟨cfgEx, behUnimpl, rfl, rfl⟩
    · exact ⟨cfgEx, behRPCDeadline, rfl, rfl⟩
    · exact ⟨cfgEx, behRPCFailed, rfl, rfl⟩
    · exact ⟨cfgEx, behConnTimeout, rfl, rfl⟩
    · exact ⟨cfgEx, behConnRefused, rfl, rfl⟩

/-- Witness for C6 at the example configuration against a SERVING target. -/
theorem c6_exactly_one_terminal_witness :
    ∃! k : ClassKind, (main cfgEx behServing).classification.kind = k :=
  c6_exactly_one_terminal.1 cfgEx behServing rfl

/-- Claim C7: two runs whose configurations agree on everything except
possibly the verbose flag, against the same target behaviour, produce the
same classification and the same exit code — verbose only changes which
diagnostic lines are logged. -/
theorem c7_verbose_no_effect (c1 c2 : Config) (beh : TargetBehavior)
    (h1 : c1.remoteURL = c2.remoteURL)
    (h2 : c1.serviceName = c2.serviceName)
    (h3 : c1.userAgent = c2.userAgent)
    (h4 : c1.connTimeoutDur = c2.connTimeoutDur)
    (h5 : c1.rpcTimeoutDur = c2.rpcTimeoutDur) :
    (process c1 beh).classification = (process c2 beh).classification ∧
    (process c1 beh).exitCode = (process c2 beh).exitCode := by
  obtain ⟨a1, s1, u1, ct1, rt1, v1⟩ := c1
  obtain ⟨a2, s2, u2, ct2, rt2, v2⟩ := c2
  simp only at h1 h2 h3 h4 h5
  subst h1; subst h2; subst h3; subst h4; subst h5
  obtain ⟨cn, rp, t1, t2⟩ := beh
  unfold process
  have hv : validate ⟨a1, s1, u1, ct1, rt1, v1⟩ =
      validate ⟨a1, s1, u1, ct1, rt1, v2⟩ := rfl
  rw [hv]
  cases hval : validate ⟨a1, s1, u1, ct1, rt1, v2⟩
  · cases cn
    · cases rp
      · rename_i st
        cases st <;> exact ⟨rfl, rfl⟩
      · rename_i hs cd
        cases hs <;> cases cd <;> exact ⟨rfl, rfl⟩
    · exact ⟨rfl, rfl⟩
    · exact ⟨rfl, rfl⟩
  · exact ⟨rfl, rfl⟩

/-- Witness for C7: the example configuration with and without verbose. -/
theorem c7_verbose_no_effect_witness :
    (process cfgEx behServing).classification =
        (process cfgExVerbose behServing).classification ∧
      (process cfgEx behServing).exitCode =
        (process cfgExVerbose behServing).exitCode :=
  c7_verbose_no_effect cfgEx cfgExVerbose behServing rfl rfl rfl rfl rfl

/-- Claim C8: for every validated configuration the run's total blocking
time is bounded by the connect timeout plus the RPC timeout, because each of
the two blocking stages runs under its own `context.WithTimeout` deadline
(termination itself is inherent: `main` and `totalBlockTime` are total
functions of the configuration and the target behaviour). -/
theorem c8_blocking_bounded (cfg : Config) (beh : TargetBehavior)
    (h : validate cfg = none) :
    totalBlockTime cfg beh ≤ cfg.connTimeoutDur + cfg.rpcTimeoutDur := by
  have hr : 0 < cfg.rpcTimeoutDur := by
    unfold validate at h
    split_ifs at h with h0 h1 h2
    exact lt_of_not_le h2
  unfold totalBlockTime connectBlockTime rpcBlockTime
  have hb1 : min beh.connectServeTime cfg.connTimeoutDur ≤ cfg.connTimeoutDur :=
    min_le_right _ _
  have hb2 : (if beh.connect = ConnectResult.ok then
      min beh.rpcServeTime cfg.rpcTimeoutDur else 0) ≤ cfg.rpcTimeoutDur := by
    split
    · exact min_le_right _ _
    · exact le_of_lt hr
  exact add_le_add hb1 hb2

/-- Witness for C8 at the example configuration against a SERVING target. -/
theorem c8_blocking_bounded_witness :
    totalBlockTime cfgEx behServing ≤
      cfgEx.connTimeoutDur + cfgEx.rpcTimeoutDur :=
  c8_blocking_bounded cfgEx behServing rfl

/-- Claim C9: two process runs with the same configuration and the same
target behaviour produce the same classification and the same exit code —
the run is a function of its inputs alone, with no state carried between
invocations (each process run re-parses its flags into fresh package-level
variables before `main` reads them). -/
theorem c9_deterministic (c1 c2 : Config) (b1 b2 : TargetBehavior)
    (hc : c1 = c2) (hb : b1 = b2) :
    (process c1 b1).classification = (process c2 b2).classification ∧
    (process c1 b1).exitCode = (process c2 b2).exitCode := by
  subst hc
  subst hb
  exact ⟨rfl, rfl⟩

/-- Witness for C9 at the example configuration against a SERVING target. -/
theorem c9_deterministic_witness :
    (process cfgEx behServing).classification =
        (process cfgEx behServing).classification ∧
      (process cfgEx behServing).exitCode =
        (process cfgEx behServing).exitCode :=
  c9_deterministic cfgEx cfgEx behServing behServing rfl rfl

/-- Claim C10: every run dials with exactly the options built in `main` —
and those always contain the blocking option and the insecure (plaintext)
option, appended unconditionally, while no configuration ever puts a
TLS-enabling transport-credentials option in the list. -/
theorem c10_insecure_unconditional (cfg : Config) (beh : TargetBehavior) :
    (main cfg beh).opts = dialOptions cfg ∧
    DialOption.withInsecure ∈ dialOptions cfg ∧
    DialOption.withBlock ∈ dialOptions cfg ∧
    (dialOptions cfg).count DialOption.withTransportCredentials = 0 := by
  refine ⟨?_, by simp [dialOptions], by simp [dialOptions], ?_⟩
  · obtain ⟨cn, rp, t1, t2⟩ := beh
    cases cn
    · cases rp
      · rename_i st
        cases st <;> rfl
      · rename_i hs cd
        cases hs <;> cases cd <;> rfl
    · rfl
    · rfl
  · simp [dialOptions, List.count_cons, List.count_nil]

end GrpcHealthProbe
